import Mathlib

/-!
# Verification of the AgentLoop action executor

A shallow embedding of `src/agentloop/actions/executor.py` (class
`ActionExecutor`), the action-dispatch shim of the AgentLoop agent.

Modelling choices:

* Python dynamic values (`Dict[str, Any]` inputs, result payloads, metadata)
  are embedded as the inductive type `Value`.
* The three external capabilities (HTTP search, subprocess, filesystem) are
  black boxes per the spec; their outcomes for a call are supplied in an `Env`
  record.  A network/parse result is either the list of parsed result blocks
  of the provider page or the description of the exception raised; a
  subprocess run either raises `TimeoutExpired`, raises some other exception,
  or completes with captured stdout/stderr and a return code; a file write
  either succeeds or raises.
* Exceptions are strings holding the Python rendering `str(e)` of the
  exception; handlers catch them exactly where the source does.
* The filesystem side effect of a call is returned alongside the
  `ActionResult` as the list of `(path, content)` writes performed.
* `core/schemas.py` is not part of the available sources; the input models
  and the `ActionResult` envelope are modelled from the spec (see the doc
  comments of the individual definitions).
-/

namespace AgentLoop

/-- A Python value, as far as this module manipulates them: the raw parameter
mappings passed to `execute`, the `output` payloads and the `metadata`
mappings of results. -/
inductive Value where
  | str : String → Value
  | int : Int → Value
  | bool : Bool → Value
  | list : List Value → Value
  | dict : List (String × Value) → Value

/-- A raw parameter mapping (`Dict[str, Any]`): string keys to values. -/
abbrev ParamDict := List (String × Value)

/-- Lookup of a key in a parameter mapping (Python dict access; keys are
unique in a Python dict, so first-match lookup is faithful). -/
def lookupKey : ParamDict → String → Option Value
  | [], _ => none
  | (k, v) :: rest, key => if k == key then some v else lookupKey rest key

/-- Modelled from the spec: `ActionType` lives in `core/schemas.py`, which is
not among the available sources.  The spec (section 3) makes it a closed
enumeration of four kinds; `unknown id` stands for any value outside the
closed set that a caller might pass to `execute` (the spec: "unknown values
are a caller error, not a crash"), carrying the string rendering of that
value as used by the dispatcher's error message. -/
inductive ActionKind where
  | SEARCH_WEB
  | RUN_CODE
  | WRITE_FILE
  | FINISH
  | unknown : String → ActionKind
deriving DecidableEq

/-- Modelled from the spec: the `ActionResult` envelope of `core/schemas.py`
(not among the available sources).  Per the spec (section 3): kind, success
flag, opaque output payload, optional error message, optional metadata
mapping; fields not supplied at a construction site default to `None`. -/
structure ActionResult where
  action : ActionKind
  success : Bool
  output : Option Value := none
  error : Option String := none
  metadata : Option (List (String × Value)) := none

/-- A parsed `a.result__a` title link of a result block: its stripped text
and its `href` attribute (`None` when the attribute is absent; the source
defaults it to `""` via `.get("href", "")`). -/
structure TitleLink where
  text : String
  href : Option String

/-- One `div.result` block of the provider's HTML page, as the parser sees
it: the title link element, if any, and the stripped text of the snippet
element, if any. -/
structure ResultBlock where
  titleLink : Option TitleLink
  snippetText : Option String

/-- The outcome of the `subprocess.run` call of `_run_code`:
`timeoutExpired` models `subprocess.TimeoutExpired`, `fault e` any other
exception with description `e = str(e)`, and `done stdout stderr rc` a
completed child process. -/
inductive ProcOutcome where
  | timeoutExpired : ProcOutcome
  | fault : String → ProcOutcome
  | done : String → String → Int → ProcOutcome

/-- The outcomes of the external capabilities for one `execute` call.
`searchOutcome` is the result of the HTTP POST, `raise_for_status` and HTML
parse of `_search_web`: either the description of the exception raised or the
list of `div.result` blocks of the page.  `writeOutcome` is the outcome of
the `filepath.write_text` call of `_write_file`. -/
structure Env where
  searchOutcome : Except String (List ResultBlock)
  procOutcome : ProcOutcome
  writeOutcome : Except String Unit

/-! ## String helpers mirroring the Python primitives used by the source -/

/-- Python whitespace as stripped by `str.strip()`. -/
def isPyWs (c : Char) : Bool :=
  c == ' ' || c == '\t' || c == '\n' || c == '\r' || c == '\x0b' || c == '\x0c'

/-- Python `str.strip()`: remove leading and trailing whitespace. -/
def pyStrip (s : String) : String :=
  (((s.toList.dropWhile isPyWs).reverse.dropWhile isPyWs).reverse).asString

/-- UTF-8 byte length of a string: Python `len(s.encode("utf-8"))`. -/
def utf8Len (s : String) : Nat :=
  s.toList.foldl (fun n c => n + c.utf8Size) 0

/-- Split a character list at `/` separators. -/
def splitSlashAux : List Char → List Char → List String → List String
  | [], cur, acc => acc ++ [cur.reverse.asString]
  | '/' :: rest, cur, acc => splitSlashAux rest [] (acc ++ [cur.reverse.asString])
  | c :: rest, cur, acc => splitSlashAux rest (c :: cur) acc

/-- Python `pathlib.Path(p).name`: the final path component, excluding any
root; empty components and `.` components are dropped during parsing, `..`
components are kept.  `Path("../../secret.txt").name == "secret.txt"`,
`Path(".").name == ""`, `Path("..").name == ".."`. -/
def pathlibName (p : String) : String :=
  ((splitSlashAux p.toList [] []).filter (fun c => c != "" && c != ".")).getLastD ""

/-- Python `Path(dir) / name` rendered as a string (a path join; an empty
final component contributes nothing). -/
def joinPath (dir name : String) : String :=
  if name == "" then dir else dir ++ "/" ++ name

/-! ## Input models

`core/schemas.py` is not among the available sources; the four per-action
input models are modelled from the spec (section 3): construction validates
the raw mapping and fails with a validation error when required fields are
missing or of the wrong shape; the error is the exception description the
executor's handlers catch and embed. -/

/-- Modelled from the spec: `SearchWebInput` — query (non-empty text),
num_results (positive integer, with a default bound; the exact default value
is not visible in the available sources). -/
structure SearchWebInput where
  query : String
  num_results : Nat

/-- Modelled from the spec: the default bound on `num_results` (its exact
value is not visible in the available sources; no claim depends on it). -/
def defaultNumResults : Nat := 5

/-- Modelled from the spec: validation performed by constructing
`SearchWebInput(**input_data)`. -/
def SearchWebInput.validate (d : ParamDict) : Except String SearchWebInput :=
  match lookupKey d "query" with
  | some (.str q) =>
    if q == "" then
      .error "1 validation error for SearchWebInput: query must be non-empty"
    else
      match lookupKey d "num_results" with
      | none => .ok ⟨q, defaultNumResults⟩
      | some (.int n) =>
        if 0 < n then .ok ⟨q, n.toNat⟩
        else .error "1 validation error for SearchWebInput: num_results must be positive"
      | some _ => .error "1 validation error for SearchWebInput: num_results must be an integer"
  | some _ => .error "1 validation error for SearchWebInput: query must be a string"
  | none => .error "1 validation error for SearchWebInput: query field required"

/-- Modelled from the spec: `RunCodeInput` — code (text), timeout (positive
number of seconds). -/
structure RunCodeInput where
  code : String
  timeout : Int

/-- Modelled from the spec: validation performed by constructing
`RunCodeInput(**input_data)`. -/
def RunCodeInput.validate (d : ParamDict) : Except String RunCodeInput :=
  match lookupKey d "code" with
  | some (.str c) =>
    match lookupKey d "timeout" with
    | some (.int t) =>
      if 0 < t then .ok ⟨c, t⟩
      else .error "1 validation error for RunCodeInput: timeout must be positive"
    | some _ => .error "1 validation error for RunCodeInput: timeout must be a number"
    | none => .error "1 validation error for RunCodeInput: timeout field required"
  | some _ => .error "1 validation error for RunCodeInput: code must be a string"
  | none => .error "1 validation error for RunCodeInput: code field required"

/-- Modelled from the spec: `WriteFileInput` — filename (text), content
(text). -/
structure WriteFileInput where
  filename : String
  content : String

/-- Modelled from the spec: validation performed by constructing
`WriteFileInput(**input_data)`. -/
def WriteFileInput.validate (d : ParamDict) : Except String WriteFileInput :=
  match lookupKey d "filename" with
  | some (.str f) =>
    match lookupKey d "content" with
    | some (.str c) => .ok ⟨f, c⟩
    | some _ => .error "1 validation error for WriteFileInput: content must be a string"
    | none => .error "1 validation error for WriteFileInput: content field required"
  | some _ => .error "1 validation error for WriteFileInput: filename must be a string"
  | none => .error "1 validation error for WriteFileInput: filename field required"

/-- Modelled from the spec: `FinishInput` — summary (text), artifacts
(ordered list of text references). -/
structure FinishInput where
  summary : String
  artifacts : List String

/-- Extract a list of strings from a list of values, failing on any
non-string element. -/
def strListOf : List Value → Option (List String)
  | [] => some []
  | .str s :: rest => (strListOf rest).map (fun l => s :: l)
  | _ :: _ => none

/-- Modelled from the spec: validation performed by constructing
`FinishInput(**input_data)`. -/
def FinishInput.validate (d : ParamDict) : Except String FinishInput :=
  match lookupKey d "summary" with
  | some (.str s) =>
    match lookupKey d "artifacts" with
    | some (.list vs) =>
      match strListOf vs with
      | some arts => .ok ⟨s, arts⟩
      | none => .error "1 validation error for FinishInput: artifacts must be a list of strings"
    | some _ => .error "1 validation error for FinishInput: artifacts must be a list"
    | none => .error "1 validation error for FinishInput: artifacts field required"
  | some _ => .error "1 validation error for FinishInput: summary must be a string"
  | none => .error "1 validation error for FinishInput: summary field required"

/-! ## The handlers (`executor.py`, lines 73-226) -/

/-- The `{title, url, snippet}` record appended for a result block whose
title link is present (`executor.py` lines 100-105): the title text, the
`href` attribute defaulted to `""`, and the snippet text defaulted to `""`
when the snippet element is absent. -/
def recordOf (t : TitleLink) (b : ResultBlock) : Value :=
  .dict [("title", .str t.text),
         ("url", .str (t.href.getD "")),
         ("snippet", .str (b.snippetText.getD ""))]

/-- The loop body of `_search_web` (`executor.py` lines 96-105): walk the
blocks already truncated to the limit, appending a record for each block
with a title link and skipping the rest. -/
def searchLoop : List ResultBlock → List Value → List Value
  | [], acc => acc
  | b :: rest, acc =>
    match b.titleLink with
    | some t => searchLoop rest (acc ++ [recordOf t b])
    | none => searchLoop rest acc

/-- The records extracted by `_search_web` from a parsed page: the source
truncates `soup.find_all("div", class_="result")` to the first
`num_results` blocks with the slice `[:search_input.num_results]` and only
then skips blocks lacking a title link (`executor.py` line 96). -/
def searchRecords (blocks : List ResultBlock) (numResults : Nat) : List Value :=
  searchLoop (blocks.take numResults) []

/-- Handler `_search_web` (`executor.py` lines 73-126): validate, perform
the HTTP search (its outcome supplied by `env`), extract records, and treat
an empty record list as failure; any exception is caught and converted to a
failure result with prefix "Search failed: ". -/
def searchWeb (env : Env) (inputData : ParamDict) : ActionResult :=
  match SearchWebInput.validate inputData with
  | .error e =>
    { action := .SEARCH_WEB, success := false, error := some ("Search failed: " ++ e) }
  | .ok si =>
    match env.searchOutcome with
    | .error e =>
      { action := .SEARCH_WEB, success := false, error := some ("Search failed: " ++ e) }
    | .ok blocks =>
      match searchRecords blocks si.num_results with
      | [] =>
        { action := .SEARCH_WEB, success := false, error := some "No search results found" }
      | r :: rs =>
        { action := .SEARCH_WEB, success := true,
          output := some (.list (r :: rs)),
          metadata := some [("query", .str si.query),
                            ("num_results", .int ((r :: rs).length : Int))] }

/-- The fixed placeholder of `_run_code` (`executor.py` line 156). -/
def runCodePlaceholder : String := "Code executed successfully (no output)"

/-- The combined output of `_run_code` (`executor.py` lines 146-149):
stdout, with stderr appended on a tagged line when non-empty. -/
def combinedOutput (stdout stderr : String) : String :=
  stdout ++ (if stderr == "" then "" else "\n[stderr]: " ++ stderr)

/-- Handler `_run_code` (`executor.py` lines 128-175): validate, run the
child process (its outcome supplied by `env`); on `TimeoutExpired` report
the caller-supplied timeout, on any other exception report its description
with prefix "Execution failed: ", and on completion report success exactly
for exit code 0, replacing an empty combined output by the placeholder and
stripping a non-empty one. -/
def runCode (env : Env) (inputData : ParamDict) : ActionResult :=
  match RunCodeInput.validate inputData with
  | .error e =>
    { action := .RUN_CODE, success := false, error := some ("Execution failed: " ++ e) }
  | .ok ci =>
    match env.procOutcome with
    | .timeoutExpired =>
      { action := .RUN_CODE, success := false,
        error := some ("Code execution timed out after " ++ toString ci.timeout ++ " seconds") }
    | .fault e =>
      { action := .RUN_CODE, success := false, error := some ("Execution failed: " ++ e) }
    | .done stdout stderr rc =>
      let output := combinedOutput stdout stderr
      let success := rc == 0
      { action := .RUN_CODE, success := success,
        output := some (.str (if output == "" then runCodePlaceholder else pyStrip output)),
        error := if success then none else some ("Exit code " ++ toString rc),
        metadata := some [("exit_code", .int rc), ("execution_time", .str "N/A")] }

/-- Handler `_write_file` (`executor.py` lines 177-204): validate, strip the
filename to its base name, join it to the output directory and write the
content there (the write's outcome supplied by `env`); any exception is
caught and converted to a failure result with prefix "File write failed: ".
The second component is the filesystem effect performed: the list of
`(path, content)` writes. -/
def writeFile (outputDir : String) (env : Env) (inputData : ParamDict) :
    ActionResult × List (String × String) :=
  match WriteFileInput.validate inputData with
  | .error e =>
    ({ action := .WRITE_FILE, success := false,
       error := some ("File write failed: " ++ e) }, [])
  | .ok wi =>
    let safeFilename := pathlibName wi.filename
    let filepath := joinPath outputDir safeFilename
    match env.writeOutcome with
    | .error e =>
      ({ action := .WRITE_FILE, success := false,
         error := some ("File write failed: " ++ e) }, [])
    | .ok _ =>
      ({ action := .WRITE_FILE, success := true,
         output := some (.str ("File written successfully: " ++ filepath)),
         metadata := some [("filepath", .str filepath),
                           ("size_bytes", .int (utf8Len wi.content : Int))] },
       [(filepath, wi.content)])

/-- Handler `_finish` (`executor.py` lines 206-226): validate and echo the
summary and artifacts; no I/O is performed. -/
def finish (inputData : ParamDict) : ActionResult :=
  match FinishInput.validate inputData with
  | .error e =>
    { action := .FINISH, success := false, error := some ("Finish action failed: " ++ e) }
  | .ok fi =>
    { action := .FINISH, success := true,
      output := some (.dict [("summary", .str fi.summary),
                             ("artifacts", .list (fi.artifacts.map Value.str))]),
      metadata := some [("completed", .bool true)] }

/-- `ActionExecutor.execute` (`executor.py` lines 38-71): dispatch on the
action kind; a kind outside the closed enumeration finds no handler and
returns immediately with the unknown-kind error.  The dispatch-level
`try/except` around `handler(input_data)` converts any escaping exception
into a failure result; since every handler already catches all exceptions
internally (each handler body above is total), the composed behavior is the
one modelled here.  Returns the result together with the filesystem writes
performed. -/
def execute (outputDir : String) (env : Env) (actionType : ActionKind)
    (inputData : ParamDict) : ActionResult × List (String × String) :=
  match actionType with
  | .SEARCH_WEB => (searchWeb env inputData, [])
  | .RUN_CODE => (runCode env inputData, [])
  | .WRITE_FILE => writeFile outputDir env inputData
  | .FINISH => (finish inputData, [])
  | .unknown id =>
    ({ action := .unknown id, success := false,
       error := some ("Unknown action type: " ++ id) }, [])

/-- The description `str(e)` of the exception raised during validation or
handler execution of an `execute` call, when one is raised.  The
`TimeoutExpired` exception of `_run_code` is excluded: it carries no
description in this model and is caught by a dedicated clause that formats
its own message (covered by the timeout theorem). -/
def describedFault (env : Env) (actionType : ActionKind) (inputData : ParamDict) :
    Option String :=
  match actionType with
  | .SEARCH_WEB =>
    match SearchWebInput.validate inputData with
    | .error e => some e
    | .ok _ =>
      match env.searchOutcome with
      | .error e => some e
      | .ok _ => none
  | .RUN_CODE =>
    match RunCodeInput.validate inputData with
    | .error e => some e
    | .ok _ =>
      match env.procOutcome with
      | .fault e => some e
      | _ => none
  | .WRITE_FILE =>
    match WriteFileInput.validate inputData with
    | .error e => some e
    | .ok _ =>
      match env.writeOutcome with
      | .error e => some e
      | .ok _ => none
  | .FINISH =>
    match FinishInput.validate inputData with
    | .error e => some e
    | .ok _ => none
  | .unknown _ => none

/-- Lookup of a key in a result's metadata mapping. -/
def metaLookup (r : ActionResult) (key : String) : Option Value :=
  match r.metadata with
  | none => none
  | some m => lookupKey m key

/-- The length of a result's output when the output is a list of records. -/
def outputListLength (r : ActionResult) : Option Nat :=
  match r.output with
  | some (.list l) => some l.length
  | _ => none

/-- A record extracted from a single block, when the block has a title link
(the per-block step of `_search_web`). -/
def extractRecord (b : ResultBlock) : Option Value :=
  b.titleLink.map (fun t => recordOf t b)

/-- Whether a record carries a non-empty title and a non-empty url, in the
shape `_search_web` builds its records. -/
def recordHasTitleAndUrl : Value → Bool
  | .dict (("title", .str t) :: ("url", .str u) :: _) => t != "" && u != ""
  | _ => false

/-- Whether a result's output is a list of records all carrying non-empty
title and url. -/
def outputRecordsOk (r : ActionResult) : Bool :=
  match r.output with
  | some (.list l) => l.all recordHasTitleAndUrl
  | _ => false

/-- The result-envelope invariant of the spec (section 3): a non-empty
error message is present when `success` is false, and the error field is
absent when `success` is true. -/
def envelopeOk (r : ActionResult) : Prop :=
  (r.success = false → ∃ m, r.error = some m ∧ m ≠ "") ∧
  (r.success = true → r.error = none)

/-! ## Concrete fixtures used by witnesses and counterexamples -/

/-- A quiescent environment: the provider page has no result blocks, the
child process exits 0 with no output, the file write succeeds. -/
def emptyEnv : Env := ⟨.ok [], .done "" "" 0, .ok ()⟩

/-- A fully parseable result block with the given title, url and snippet. -/
def titledBlock (t u s : String) : ResultBlock := ⟨some ⟨t, some u⟩, some s⟩

/-- A provider page whose first block lacks a title link, followed by three
parseable blocks. -/
def pageTitlelessFirst : List ResultBlock :=
  [⟨none, none⟩, titledBlock "T1" "u1" "s1", titledBlock "T2" "u2" "s2",
   titledBlock "T3" "u3" "s3"]

/-- An environment whose search returns `pageTitlelessFirst`. -/
def envTitlelessFirst : Env := ⟨.ok pageTitlelessFirst, .done "" "" 0, .ok ()⟩

/-- A provider page of five fully parseable result blocks. -/
def pageFiveBlocks : List ResultBlock :=
  [titledBlock "T1" "u1" "s1", titledBlock "T2" "u2" "s2", titledBlock "T3" "u3" "s3",
   titledBlock "T4" "u4" "s4", titledBlock "T5" "u5" "s5"]

/-- An environment whose search returns `pageFiveBlocks`. -/
def envFiveBlocks : Env := ⟨.ok pageFiveBlocks, .done "" "" 0, .ok ()⟩

/-- An environment whose child process prints a single space and exits 0. -/
def envWhitespaceRun : Env := ⟨.ok [], .done " " "" 0, .ok ()⟩

/-- An environment whose child process prints `123` and exits 0. -/
def envHiRun : Env := ⟨.ok [], .done "123\n" "" 0, .ok ()⟩

/-- An environment whose child process raises `TimeoutExpired`. -/
def envTimeoutRun : Env := ⟨.ok [], .timeoutExpired, .ok ()⟩

/-- An environment whose child process exits with status 1 printing nothing. -/
def envExitOneRun : Env := ⟨.ok [], .done "" "" 1, .ok ()⟩

/-! ## Helper lemmas -/

/-- A string with a non-empty left part is non-empty. -/
theorem append_left_ne_empty (s t : String) (hs : s ≠ "") : s ++ t ≠ "" := by
  intro h
  apply hs
  have hd : s.data ++ t.data = [] := by
    simpa [String.data_append] using congrArg String.data h
  have h1 : s.data = [] := (List.append_eq_nil.mp hd).1
  exact String.ext (h1.trans rfl)

/-- The accumulator form of the `_search_web` loop: the loop appends exactly
the records of the blocks that carry a title link. -/
theorem searchLoop_eq (bs : List ResultBlock) (acc : List Value) :
    searchLoop bs acc = acc ++ bs.filterMap extractRecord := by
  induction bs generalizing acc with
  | nil => simp [searchLoop]
  | cons b rest ih =>
    cases hb : b.titleLink with
    | none => simp [searchLoop, hb, extractRecord, ih]
    | some t => simp [searchLoop, hb, extractRecord, ih]

/-! ## Claim theorems -/

/-- Claim C9: for every action kind value not among the four known kinds,
`execute` returns immediately with success=false and an error message
containing the unknown kind's identifier (the message is exactly the prefix
"Unknown action type: " followed by the identifier), and no handler is
invoked: the returned pair equals the dispatcher's immediate-return value,
with no output, no metadata and an empty list of filesystem writes. -/
theorem execute_unknown_kind (dir : String) (env : Env) (uid : String) (d : ParamDict) :
    execute dir env (.unknown uid) d =
      ({ action := .unknown uid, success := false, output := none,
         error := some ("Unknown action type: " ++ uid), metadata := none }, []) := rfl

/-- Claim C10: whatever action kind and input are supplied, and whether the
call succeeds or fails (handler result, validation failure, unknown kind, or
caught fault), the `action` field of the result returned by `execute` equals
the requested kind. -/
theorem execute_preserves_action (dir : String) (env : Env) (k : ActionKind)
    (d : ParamDict) : (execute dir env k d).1.action = k := by
  cases k with
  | SEARCH_WEB =>
    show (searchWeb env d).action = ActionKind.SEARCH_WEB
    unfold searchWeb
    split
    · rfl
    · split
      · rfl
      · split <;> rfl
  | RUN_CODE =>
    show (runCode env d).action = ActionKind.RUN_CODE
    unfold runCode
    split
    · rfl
    · split <;> rfl
  | WRITE_FILE =>
    show (writeFile dir env d).1.action = ActionKind.WRITE_FILE
    unfold writeFile
    split
    · rfl
    · split <;> rfl
  | FINISH =>
    show (finish d).action = ActionKind.FINISH
    unfold finish
    split <;> rfl
  | unknown uid => rfl

/-- Claim C3, counterexample: the claim asserts that a result block lacking
a title link is skipped without counting toward the `num_results` limit, so
that with three parseable blocks following a title-less one and
`num_results = 3` the output would hold 3 records.  The source truncates
the block list to the first `num_results` blocks before the title check
(`executor.py` line 96), so the title-less first block consumes one slot of
the limit and only 2 records are extracted. -/
theorem searchWeb_titleless_consumes_limit :
    outputListLength (execute "output" envTitlelessFirst .SEARCH_WEB
        [("query", .str "q"), ("num_results", .int 3)]).1 = some 2 ∧
    (some 2 : Option Nat) ≠ some 3 := ⟨rfl, by decide⟩

/-- Claim C3, amended: `_search_web` truncates the page's result blocks to
the first `num_results` blocks and then skips, within that window, the
blocks lacking a title link — a skipped block therefore does count toward
the limit.  The extracted records are exactly those of the blocks with a
title link among the first `num_results` blocks.  For a response of 5
parseable blocks and `num_results = 3`, the output is exactly 3 records,
each with non-empty title and url. -/
theorem searchRecords_truncate_then_filter :
    (∀ (blocks : List ResultBlock) (n : Nat),
      searchRecords blocks n = (blocks.take n).filterMap extractRecord) ∧
    outputListLength (execute "output" envFiveBlocks .SEARCH_WEB
        [("query", .str "q"), ("num_results", .int 3)]).1 = some 3 ∧
    outputRecordsOk (execute "output" envFiveBlocks .SEARCH_WEB
        [("query", .str "q"), ("num_results", .int 3)]).1 = true := by
  refine ⟨fun blocks n => ?_, rfl, rfl⟩
  unfold searchRecords
  simpa using searchLoop_eq (blocks.take n) []

/-- Claim C4, counterexample: the claim asserts the output field of a
successful RUN_CODE result is never the empty string.  A child process that
writes a single space to stdout and exits 0 yields success=true with output
`""`: the combined output `" "` is non-empty, so the placeholder branch is
not taken, and `strip()` reduces it to the empty string
(`executor.py` line 156). -/
theorem runCode_whitespace_empty_output :
    (execute "output" envWhitespaceRun .RUN_CODE
        [("code", .str "import sys; sys.stdout.write(chr(32))"), ("timeout", .int 5)]).1.success = true ∧
    (execute "output" envWhitespaceRun .RUN_CODE
        [("code", .str "import sys; sys.stdout.write(chr(32))"), ("timeout", .int 5)]).1.output
      = some (.str "") := ⟨rfl, rfl⟩

/-- Claim C4, amended: for RUN_CODE, when the child process exits 0, the
result is successful and: if the combined stdout/stderr output is the empty
string, the output field is the fixed non-empty placeholder message; if the
combined output is non-empty, the output field is the stripped combined
output — hence the output of a successful result is non-empty whenever the
combined output is empty or contains any non-whitespace character, and it
can be the empty string only when the combined output is non-empty
whitespace. -/
theorem runCode_success_output (dir : String) (env : Env) (c : String) (t : Int)
    (stdout stderr : String) (hp : env.procOutcome = .done stdout stderr 0)
    (ht : 0 < t) :
    (execute dir env .RUN_CODE [("code", .str c), ("timeout", .int t)]).1.success = true ∧
    (combinedOutput stdout stderr = "" →
      (execute dir env .RUN_CODE [("code", .str c), ("timeout", .int t)]).1.output
        = some (.str runCodePlaceholder) ∧ runCodePlaceholder ≠ "") ∧
    (combinedOutput stdout stderr ≠ "" →
      (execute dir env .RUN_CODE [("code", .str c), ("timeout", .int t)]).1.output
        = some (.str (pyStrip (combinedOutput stdout stderr)))) ∧
    (pyStrip (combinedOutput stdout stderr) ≠ "" →
      ∃ s, (execute dir env .RUN_CODE [("code", .str c), ("timeout", .int t)]).1.output
        = some (.str s) ∧ s ≠ "") := by
  have hv : RunCodeInput.validate [("code", .str c), ("timeout", .int t)] = .ok ⟨c, t⟩ := by
    simp [RunCodeInput.validate, lookupKey, ht]
  refine ⟨?_, ?_, ?_, ?_⟩
  · simp [execute, runCode, hv, hp]
  · intro hc
    refine ⟨?_, by simp [runCodePlaceholder]⟩
    simp [execute, runCode, hv, hp, hc]
  · intro hc
    simp [execute, runCode, hv, hp, hc]
  · intro hs
    by_cases hc : combinedOutput stdout stderr = ""
    · exact ⟨runCodePlaceholder, by simp [execute, runCode, hv, hp, hc],
        by simp [runCodePlaceholder]⟩
    · exact ⟨pyStrip (combinedOutput stdout stderr),
        by simp [execute, runCode, hv, hp, hc], hs⟩

/-- Witness for the amended C4 theorem: a child printing `123` on stdout
and exiting 0 yields a successful result with a non-empty output. -/
theorem runCode_success_output_witness :
    (execute "output" envHiRun .RUN_CODE
        [("code", .str "print(123)"), ("timeout", .int 5)]).1.success = true ∧
    ∃ s, (execute "output" envHiRun .RUN_CODE
        [("code", .str "print(123)"), ("timeout", .int 5)]).1.output
      = some (.str s) ∧ s ≠ "" := by
  have h := runCode_success_output "output" envHiRun "print(123)" 5 "123\n" "" rfl
    (by decide)
  exact ⟨h.1, h.2.2.2 (by decide)⟩

/-- Claim C5: for every WRITE_FILE call with valid input whose write
succeeds, the directory components of the caller-supplied filename are
stripped unconditionally and the content is written to
sandboxDir/baseName; the result is successful and `metadata.size_bytes`
equals the UTF-8 byte length of the content.  In particular, filename
`"../../secret.txt"` with content `"x"` creates the file at
`<sandbox>/secret.txt` with `size_bytes = 1`. -/
theorem writeFile_strips_directories (dir : String) (env : Env)
    (filename content : String) (hw : env.writeOutcome = .ok ()) :
    (execute dir env .WRITE_FILE
        [("filename", .str filename), ("content", .str content)]).1.success = true ∧
    (execute dir env .WRITE_FILE
        [("filename", .str filename), ("content", .str content)]).2
      = [(joinPath dir (pathlibName filename), content)] ∧
    metaLookup (execute dir env .WRITE_FILE
        [("filename", .str filename), ("content", .str content)]).1 "size_bytes"
      = some (.int (utf8Len content : Int)) ∧
    (filename = "../../secret.txt" →
      (execute dir env .WRITE_FILE
          [("filename", .str filename), ("content", .str content)]).2
        = [(dir ++ "/secret.txt", content)]) ∧
    (content = "x" →
      metaLookup (execute dir env .WRITE_FILE
          [("filename", .str filename), ("content", .str content)]).1 "size_bytes"
        = some (.int 1)) := by
  have hv : WriteFileInput.validate [("filename", .str filename), ("content", .str content)]
      = .ok ⟨filename, content⟩ := by
    simp [WriteFileInput.validate, lookupKey]
  refine ⟨?_, ?_, ?_, ?_, ?_⟩
  · simp [execute, writeFile, hv, hw]
  · simp [execute, writeFile, hv, hw]
  · simp [execute, writeFile, hv, hw, metaLookup, lookupKey]
  · intro h
    subst h
    have hn : pathlibName "../../secret.txt" = "secret.txt" := rfl
    have hj : joinPath dir "secret.txt" = dir ++ "/secret.txt" := by
      calc joinPath dir "secret.txt" = dir ++ "/" ++ "secret.txt" := rfl
        _ = dir ++ ("/" ++ "secret.txt") := String.append_assoc dir "/" "secret.txt"
        _ = dir ++ "/secret.txt" := by rw [show ("/" ++ "secret.txt" : String) = "/secret.txt" from rfl]
    simp [execute, writeFile, hv, hw, hn, hj]
  · intro h
    subst h
    have hx : utf8Len "x" = 1 := rfl
    simp [execute, writeFile, hv, hw, metaLookup, lookupKey, hx]

/-- Witness for the C5 theorem at the concrete input of the claim. -/
theorem writeFile_strips_directories_witness :
    (execute "output" emptyEnv .WRITE_FILE
        [("filename", .str "../../secret.txt"), ("content", .str "x")]).1.success = true ∧
    (execute "output" emptyEnv .WRITE_FILE
        [("filename", .str "../../secret.txt"), ("content", .str "x")]).2
      = [("output" ++ "/secret.txt", "x")] ∧
    metaLookup (execute "output" emptyEnv .WRITE_FILE
        [("filename", .str "../../secret.txt"), ("content", .str "x")]).1 "size_bytes"
      = some (.int 1) := by
  have h := writeFile_strips_directories "output" emptyEnv "../../secret.txt" "x" rfl
  exact ⟨h.1, h.2.2.2.1 rfl, h.2.2.2.2 rfl⟩

/-- Claim C6: for RUN_CODE, if the child process raises `TimeoutExpired`,
the result has success=false and an error message stating the
caller-supplied timeout duration (the validated timeout value is threaded
into the error-formatting path). -/
theorem runCode_timeout_reports_duration (dir : String) (env : Env) (c : String)
    (t : Int) (hp : env.procOutcome = .timeoutExpired) (ht : 0 < t) :
    (execute dir env .RUN_CODE
        [("code", .str c), ("timeout", .int t)]).1.success = false ∧
    (execute dir env .RUN_CODE [("code", .str c), ("timeout", .int t)]).1.error
      = some ("Code execution timed out after " ++ toString t ++ " seconds") := by
  have hv : RunCodeInput.validate [("code", .str c), ("timeout", .int t)] = .ok ⟨c, t⟩ := by
    simp [RunCodeInput.validate, lookupKey, ht]
  constructor
  · simp [execute, runCode, hv, hp]
  · simp [execute, runCode, hv, hp]

/-- Witness for the C6 theorem: timeout 1, code that sleeps 5 seconds. -/
theorem runCode_timeout_reports_duration_witness :
    (execute "output" envTimeoutRun .RUN_CODE
        [("code", .str "import time; time.sleep(5)"), ("timeout", .int 1)]).1.success
      = false ∧
    (execute "output" envTimeoutRun .RUN_CODE
        [("code", .str "import time; time.sleep(5)"), ("timeout", .int 1)]).1.error
      = some "Code execution timed out after 1 seconds" := by
  have h := runCode_timeout_reports_duration "output" envTimeoutRun
    "import time; time.sleep(5)" 1 rfl (by decide)
  exact ⟨h.1, h.2⟩

/-- Claim C7: for RUN_CODE on normal completion of the child process, the
result is successful exactly when the exit code is 0; on a nonzero exit
code the error message names that exit code; and `metadata.exit_code`
equals the raw exit code in both cases. -/
theorem runCode_exit_code (dir : String) (env : Env) (c : String) (t : Int)
    (stdout stderr : String) (rc : Int)
    (hp : env.procOutcome = .done stdout stderr rc) (ht : 0 < t) :
    ((execute dir env .RUN_CODE
        [("code", .str c), ("timeout", .int t)]).1.success = true ↔ rc = 0) ∧
    (rc ≠ 0 →
      (execute dir env .RUN_CODE [("code", .str c), ("timeout", .int t)]).1.error
        = some ("Exit code " ++ toString rc)) ∧
    metaLookup (execute dir env .RUN_CODE
        [("code", .str c), ("timeout", .int t)]).1 "exit_code" = some (.int rc) := by
  have hv : RunCodeInput.validate [("code", .str c), ("timeout", .int t)] = .ok ⟨c, t⟩ := by
    simp [RunCodeInput.validate, lookupKey, ht]
  refine ⟨?_, ?_, ?_⟩
  · simp [execute, runCode, hv, hp]
  · intro h
    simp [execute, runCode, hv, hp, h]
  · simp [execute, runCode, hv, hp, metaLookup, lookupKey]

/-- Witness for the C7 theorem: code exiting with status 1. -/
theorem runCode_exit_code_witness :
    ¬ (execute "output" envExitOneRun .RUN_CODE
        [("code", .str "import sys; sys.exit(1)"), ("timeout", .int 5)]).1.success
      = true ∧
    (execute "output" envExitOneRun .RUN_CODE
        [("code", .str "import sys; sys.exit(1)"), ("timeout", .int 5)]).1.error
      = some "Exit code 1" ∧
    metaLookup (execute "output" envExitOneRun .RUN_CODE
        [("code", .str "import sys; sys.exit(1)"), ("timeout", .int 5)]).1 "exit_code"
      = some (.int 1) := by
  have h := runCode_exit_code "output" envExitOneRun "import sys; sys.exit(1)" 5
    "" "" 1 rfl (by decide)
  exact ⟨fun hs => by simpa using h.1.mp hs, h.2.1 (by decide), h.2.2⟩

/-- Claim C8: for SEARCH_WEB with valid input, when the provider call
succeeds but the extracted record list is empty, the result has
success=false and error exactly "No search results found" with no output;
and in general an empty record list is never reported as a success: every
successful SEARCH_WEB result carries a non-empty list of records. -/
theorem searchWeb_empty_results (dir : String) (env : Env) (q : String) (n : Nat)
    (blocks : List ResultBlock) (hq : q ≠ "") (hn : 0 < n)
    (hs : env.searchOutcome = .ok blocks) (he : searchRecords blocks n = []) :
    (execute dir env .SEARCH_WEB
        [("query", .str q), ("num_results", .int (n : Int))]).1.success = false ∧
    (execute dir env .SEARCH_WEB
        [("query", .str q), ("num_results", .int (n : Int))]).1.error
      = some "No search results found" ∧
    (execute dir env .SEARCH_WEB
        [("query", .str q), ("num_results", .int (n : Int))]).1.output = none ∧
    (∀ (env2 : Env) (d2 : ParamDict) (l : List Value),
      (execute dir env2 .SEARCH_WEB d2).1.success = true →
      (execute dir env2 .SEARCH_WEB d2).1.output = some (.list l) → l ≠ []) := by
  have hv : SearchWebInput.validate [("query", .str q), ("num_results", .int (n : Int))]
      = .ok ⟨q, n⟩ := by
    simp [SearchWebInput.validate, lookupKey, hq, Int.natCast_pos.mpr hn,
      Int.toNat_natCast]
  refine ⟨?_, ?_, ?_, ?_⟩
  · simp [execute, searchWeb, hv, hs, he]
  · simp [execute, searchWeb, hv, hs, he]
  · simp [execute, searchWeb, hv, hs, he]
  · intro env2 d2 l
    show (searchWeb env2 d2).success = true → (searchWeb env2 d2).output = some (.list l) → l ≠ []
    unfold searchWeb
    split
    · intro hcontra; simp at hcontra
    · split
      · intro hcontra; simp at hcontra
      · split
        · intro hcontra; simp at hcontra
        · intro _ hout
          simp only [Option.some.injEq, Value.list.injEq] at hout
          simp [← hout]

/-- Witness for the C8 theorem: an empty provider page. -/
theorem searchWeb_empty_results_witness :
    (execute "output" emptyEnv .SEARCH_WEB
        [("query", .str "q"), ("num_results", .int (1 : Nat))]).1.success = false ∧
    (execute "output" emptyEnv .SEARCH_WEB
        [("query", .str "q"), ("num_results", .int (1 : Nat))]).1.error
      = some "No search results found" := by
  have h := searchWeb_empty_results "output" emptyEnv "q" 1 [] (by decide) (by decide)
    rfl rfl
  exact ⟨h.1, h.2.1⟩

/-- Claim C1: for every action kind and raw parameter mapping, `execute`
returns an `ActionResult` (it is a total function of the call's inputs and
the environment's outcomes), and any exception carrying a description that
is raised during validation or execution of a handler is caught and
converted into a result with success=false whose error message embeds the
exception's description (a non-empty handler-specific message followed by
the description).  The `TimeoutExpired` exception, which the source catches
with a dedicated clause that formats the timeout duration instead of the
exception text, is covered by the dedicated timeout theorem of claim C6. -/
theorem execute_converts_faults (dir : String) (env : Env) (k : ActionKind)
    (d : ParamDict) (e : String) (h : describedFault env k d = some e) :
    (execute dir env k d).1.success = false ∧
    ∃ m, m ≠ "" ∧ (execute dir env k d).1.error = some (m ++ e) := by
  cases k with
  | SEARCH_WEB =>
    cases hv : SearchWebInput.validate d with
    | error e0 =>
      obtain rfl : e0 = e := by simpa [describedFault, hv] using h
      exact ⟨by simp [execute, searchWeb, hv],
        "Search failed: ", by decide, by simp [execute, searchWeb, hv]⟩
    | ok si =>
      cases hs : env.searchOutcome with
      | error e0 =>
        obtain rfl : e0 = e := by simpa [describedFault, hv, hs] using h
        exact ⟨by simp [execute, searchWeb, hv, hs],
          "Search failed: ", by decide, by simp [execute, searchWeb, hv, hs]⟩
      | ok blocks => simp [describedFault, hv, hs] at h
  | RUN_CODE =>
    cases hv : RunCodeInput.validate d with
    | error e0 =>
      obtain rfl : e0 = e := by simpa [describedFault, hv] using h
      exact ⟨by simp [execute, runCode, hv],
        "Execution failed: ", by decide, by simp [execute, runCode, hv]⟩
    | ok ci =>
      cases hp : env.procOutcome with
      | timeoutExpired => simp [describedFault, hv, hp] at h
      | fault e0 =>
        obtain rfl : e0 = e := by simpa [describedFault, hv, hp] using h
        exact ⟨by simp [execute, runCode, hv, hp],
          "Execution failed: ", by decide, by simp [execute, runCode, hv, hp]⟩
      | done stdout stderr rc => simp [describedFault, hv, hp] at h
  | WRITE_FILE =>
    cases hv : WriteFileInput.validate d with
    | error e0 =>
      obtain rfl : e0 = e := by simpa [describedFault, hv] using h
      exact ⟨by simp [execute, writeFile, hv],
        "File write failed: ", by decide, by simp [execute, writeFile, hv]⟩
    | ok wi =>
      cases hw : env.writeOutcome with
      | error e0 =>
        obtain rfl : e0 = e := by simpa [describedFault, hv, hw] using h
        exact ⟨by simp [execute, writeFile, hv, hw],
          "File write failed: ", by decide, by simp [execute, writeFile, hv, hw]⟩
      | ok u => simp [describedFault, hv, hw] at h
  | FINISH =>
    cases hv : FinishInput.validate d with
    | error e0 =>
      obtain rfl : e0 = e := by simpa [describedFault, hv] using h
      exact ⟨by simp [execute, finish, hv],
        "Finish action failed: ", by decide, by simp [execute, finish, hv]⟩
    | ok fi => simp [describedFault, hv] at h
  | unknown uid => simp [describedFault] at h

/-- Witness for the C1 theorem: a RUN_CODE payload missing the required
`code` field raises a validation error, which `execute` converts into a
failure result embedding the validation error's description. -/
theorem execute_converts_faults_witness :
    describedFault emptyEnv .RUN_CODE []
      = some "1 validation error for RunCodeInput: code field required" ∧
    ((execute "output" emptyEnv .RUN_CODE []).1.success = false ∧
     ∃ m, m ≠ "" ∧ (execute "output" emptyEnv .RUN_CODE []).1.error
        = some (m ++ "1 validation error for RunCodeInput: code field required")) :=
  ⟨rfl, execute_converts_faults "output" emptyEnv .RUN_CODE [] _ rfl⟩

/-- The search handler always satisfies the envelope invariant. -/
theorem searchWeb_envelopeOk (env : Env) (d : ParamDict) :
    envelopeOk (searchWeb env d) := by
  unfold searchWeb
  split
  case _ e hv =>
    exact ⟨fun _ => ⟨_, rfl, append_left_ne_empty "Search failed: " e (by decide)⟩,
      fun hc => by simp at hc⟩
  case _ si hv =>
    split
    case _ e hs =>
      exact ⟨fun _ => ⟨_, rfl, append_left_ne_empty "Search failed: " e (by decide)⟩,
        fun hc => by simp at hc⟩
    case _ blocks hs =>
      split
      · exact ⟨fun _ => ⟨"No search results found", rfl, by decide⟩,
          fun hc => by simp at hc⟩
      · exact ⟨fun hc => by simp at hc, fun _ => rfl⟩

/-- The run-code handler always satisfies the envelope invariant. -/
theorem runCode_envelopeOk (env : Env) (d : ParamDict) :
    envelopeOk (runCode env d) := by
  unfold runCode
  split
  case _ e hv =>
    exact ⟨fun _ => ⟨_, rfl, append_left_ne_empty "Execution failed: " e (by decide)⟩,
      fun hc => by simp at hc⟩
  case _ ci hv =>
    split
    case _ hp =>
      exact ⟨fun _ => ⟨_, rfl,
          append_left_ne_empty "Code execution timed out after "
            (toString ci.timeout ++ " seconds") (by decide)⟩,
        fun hc => by simp at hc⟩
    case _ e hp =>
      exact ⟨fun _ => ⟨_, rfl, append_left_ne_empty "Execution failed: " e (by decide)⟩,
        fun hc => by simp at hc⟩
    case _ stdout stderr rc hp =>
      cases hrc : rc == 0 with
      | true =>
        exact ⟨fun hc => by simp [hrc] at hc, fun _ => by simp [hrc]⟩
      | false =>
        refine ⟨fun _ => ⟨_, by simp [hrc],
          append_left_ne_empty "Exit code " (toString rc) (by decide)⟩,
          fun hc => by simp [hrc] at hc⟩

/-- The write-file handler always satisfies the envelope invariant. -/
theorem writeFile_envelopeOk (dir : String) (env : Env) (d : ParamDict) :
    envelopeOk (writeFile dir env d).1 := by
  unfold writeFile
  split
  case _ e hv =>
    exact ⟨fun _ => ⟨_, rfl, append_left_ne_empty "File write failed: " e (by decide)⟩,
      fun hc => by simp at hc⟩
  case _ wi hv =>
    split
    case _ e hw =>
      exact ⟨fun _ => ⟨_, rfl, append_left_ne_empty "File write failed: " e (by decide)⟩,
        fun hc => by simp at hc⟩
    case _ u hw =>
      exact ⟨fun hc => by simp at hc, fun _ => rfl⟩

/-- The finish handler always satisfies the envelope invariant. -/
theorem finish_envelopeOk (d : ParamDict) : envelopeOk (finish d) := by
  unfold finish
  split
  case _ e hv =>
    exact ⟨fun _ => ⟨_, rfl, append_left_ne_empty "Finish action failed: " e (by decide)⟩,
      fun hc => by simp at hc⟩
  case _ fi hv =>
    exact ⟨fun hc => by simp at hc, fun _ => rfl⟩

/-- Claim C2: every `ActionResult` returned by `execute`, for any kind and
any input, satisfies the envelope invariant: the error field holds a
non-empty message when success=false, and the error field is absent (None)
when success=true. -/
theorem execute_error_envelope (dir : String) (env : Env) (k : ActionKind)
    (d : ParamDict) : envelopeOk (execute dir env k d).1 := by
  cases k with
  | SEARCH_WEB => exact searchWeb_envelopeOk env d
  | RUN_CODE => exact runCode_envelopeOk env d
  | WRITE_FILE => exact writeFile_envelopeOk dir env d
  | FINISH => exact finish_envelopeOk d
  | unknown uid =>
    exact ⟨fun _ => ⟨_, rfl, append_left_ne_empty "Unknown action type: " uid (by decide)⟩,
      fun hc => by simp [execute] at hc⟩

/-- Witness for the C2 theorem: a failing call (unknown kind) carries a
non-empty error, a successful call (valid FINISH) carries none. -/
theorem execute_error_envelope_witness :
    (∃ m, (execute "output" emptyEnv (.unknown "nope") []).1.error = some m ∧ m ≠ "") ∧
    (execute "output" emptyEnv .FINISH
        [("summary", .str "s"), ("artifacts", .list [])]).1.error = none :=
  ⟨(execute_error_envelope "output" emptyEnv (.unknown "nope") []).1 rfl,
   (execute_error_envelope "output" emptyEnv .FINISH
      [("summary", .str "s"), ("artifacts", .list [])]).2 rfl⟩

end AgentLoop
